import Mathlib

/-!
# Verification of the solar-monitor analysis core (`src/App.tsx`)

Shallow embedding of the analysis engine of the repository: the windowed
aggregator `getAverage`, the flare peak detector in `loadData`, the danger
scorer / trend / source / forecast / physics logic in `analyzeData`, and the
App-level source-attribution flags.  JavaScript numbers are modelled as `ℚ`,
ISO timestamps by their epoch value (`new Date(t).getTime()`) as `ℚ`, and the
partial/falsy JavaScript idioms (`a[i]`, `x?.f`, `v || d`) by explicit total
combinators.  `Math.random()`-driven phrase picking is modelled by an injected
selector `sel : ℕ → ℕ`, one call-site index per `pick` occurrence.
-/

/-- JavaScript indexing `l[i]`: `undefined` (here `none`) when out of range or
negative.  The source always indexes with expressions such as `len - 1`,
which can be negative, hence the `ℤ` index. -/
def jsGet {α : Type} (l : List α) (i : ℤ) : Option α :=
  if 0 ≤ i then l.get? i.toNat else none

/-- JavaScript `x?.field || d` for a numeric field: the default applies both
when the base is `undefined` and when the field value is falsy (`0`). -/
def jsOrElse (o : Option ℚ) (d : ℚ) : ℚ :=
  match o with
  | none => d
  | some v => if v = 0 then d else v

/-- JavaScript `v || d` on numbers (`NaN` never arises in the `ℚ` model). -/
def jsOr (v d : ℚ) : ℚ :=
  if v = 0 then d else v

/-- JavaScript `data.slice(-count)` for a non-negative literal `count`:
the last `count` elements, the whole array when `count` exceeds the length,
and — because `-0` is `0` — the whole array when `count = 0`. -/
def jsSliceLast {α : Type} (data : List α) (count : ℕ) : List α :=
  if count = 0 then data else data.drop (data.length - count)

-- Sample records delivered by the data-fetch collaborator (`src/types`).

structure KpSample where
  time : ℚ
  kp : ℚ
deriving DecidableEq

structure WindSample where
  time : ℚ
  speed : ℚ
  density : ℚ
deriving DecidableEq

/-- `FlareDataPoint`; the `class` field (a Lean keyword) is named `cls`. -/
structure FlareSample where
  time : ℚ
  flux : ℚ
  cls : String
deriving DecidableEq

structure ProtonSample where
  time : ℚ
  flux : ℚ
deriving DecidableEq

structure ForecastSample where
  time : ℚ
  kp : ℚ
deriving DecidableEq

/-- `src/App.tsx` `getAverage(data, key, count)`:
`0` on an empty array, otherwise the sum of `(curr[key] || 0)` over
`data.slice(-count)` divided by the slice length.  A sample whose field is
absent is `none`; the `|| 0` turns it (and any falsy value) into `0`. -/
def getAverage {α : Type} (data : List α) (key : α → Option ℚ) (count : ℕ) : ℚ :=
  if data.isEmpty then 0
  else
    let slice := jsSliceLast data count
    ((slice.map fun x => (key x).getD 0).sum) / (slice.length : ℚ)

-- Flare classification -------------------------------------------------------

inductive FlareLetter
  | A | B | C | M | X
deriving DecidableEq

/-- A flare-class label `letter + mantissa` (e.g. `"M3.4"`), with the mantissa
kept as the already one-decimal-rounded rational the string carries. -/
structure FlareClass where
  letter : FlareLetter
  mantissa : ℚ
deriving DecidableEq

/-- Rounding to one decimal digit (JavaScript `toFixed(1)` on the mantissa). -/
def roundTo1 (q : ℚ) : ℚ :=
  (round (10 * q) : ℤ) / 10

/-- Modelled from the spec: the flare-class classifier
`getFlareClass : flux → string` lives in `src/services/noaaService`, which is
not part of the provided sources.  Per the spec it maps flux by decade —
`<1e-7→'A'`, `<1e-6→'B'`, `<1e-5→'C'`, `<1e-4→'M'`, else `'X'` — with
`mantissa = flux / 10^decade` formatted to one decimal. -/
def getFlareClass (flux : ℚ) : FlareClass :=
  if flux < 1 / 10 ^ 7 then ⟨.A, roundTo1 (flux / (1 / 10 ^ 8))⟩
  else if flux < 1 / 10 ^ 6 then ⟨.B, roundTo1 (flux / (1 / 10 ^ 7))⟩
  else if flux < 1 / 10 ^ 5 then ⟨.C, roundTo1 (flux / (1 / 10 ^ 6))⟩
  else if flux < 1 / 10 ^ 4 then ⟨.M, roundTo1 (flux / (1 / 10 ^ 5))⟩
  else ⟨.X, roundTo1 (flux / (1 / 10 ^ 4))⟩

-- Flare peak detection (`loadData`, src/App.tsx lines 124-143) ---------------

/-- `ExtendedFlare`: a flare sample spread together with its
`isSignificant` tag. -/
structure ExtendedFlare where
  time : ℚ
  flux : ℚ
  cls : String
  isSignificant : Bool
deriving DecidableEq

/-- The local-maximum noise threshold `1e-8`. -/
def flareThreshold : ℚ := 1 / 10 ^ 8

/-- The significance threshold `1e-6`. -/
def sigThreshold : ℚ := 1 / 10 ^ 6

/-- The detection loop: for `i` from `1` to `length - 2`, push
`flares[i]` (tagged) whenever its flux strictly exceeds both neighbours and
the noise threshold.  Transcribed as a scan over consecutive triples. -/
def detectPeaks : List FlareSample → List ExtendedFlare
  | a :: b :: c :: rest =>
      (if b.flux > a.flux ∧ b.flux > c.flux ∧ b.flux > flareThreshold then
        [⟨b.time, b.flux, b.cls, decide (b.flux ≥ sigThreshold)⟩]
      else []) ++ detectPeaks (b :: c :: rest)
  | _ => []

/-- The sort relation of `peaks.sort((a,b) => time b - time a)`:
most recent first. -/
def timeGE (a b : ExtendedFlare) : Prop := b.time ≤ a.time

instance : DecidableRel timeGE := fun a b =>
  inferInstanceAs (Decidable (b.time ≤ a.time))

instance : IsTotal ExtendedFlare timeGE :=
  ⟨fun a b => (le_total b.time a.time).imp id id⟩

instance : IsTrans ExtendedFlare timeGE :=
  ⟨fun _ _ _ h h' => le_trans h' h⟩

/-- `sortedPeaks`: the detected peaks sorted by descending timestamp
(stable, as `Array.prototype.sort` is). -/
def detectedFlares (flares : List FlareSample) : List ExtendedFlare :=
  List.insertionSort timeGE (detectPeaks flares)

-- Snapshot aggregates of `analyzeData` (src/App.tsx lines 166-285) -----------

/-- `kp[kp.length - 1]?.kp || 0`. -/
def lastKp (kp : List KpSample) : ℚ :=
  jsOrElse ((jsGet kp ((kp.length : ℤ) - 1)).map KpSample.kp) 0

/-- `kp[kp.length - 2]?.kp || lastKp` — note the falsy fallback. -/
def prevKp (kp : List KpSample) : ℚ :=
  jsOrElse ((jsGet kp ((kp.length : ℤ) - 2)).map KpSample.kp) (lastKp kp)

/-- `getAverage(wind, 'speed', 6)`. -/
def avgWind (wind : List WindSample) : ℚ :=
  getAverage wind (fun w => some w.speed) 6

/-- `getAverage(wind.slice(0, -6), 'speed', 6) || avgWind`. -/
def prevWind (wind : List WindSample) : ℚ :=
  jsOr (getAverage (wind.take (wind.length - 6)) (fun w => some w.speed) 6)
    (avgWind wind)

/-- `getAverage(flares, 'flux', 12)`. -/
def avgFlux (flares : List FlareSample) : ℚ :=
  getAverage flares (fun f => some f.flux) 12

/-- `getAverage(protons, 'flux', 6)`. -/
def avgProton (protons : List ProtonSample) : ℚ :=
  getAverage protons (fun p => some p.flux) 6

/-- `forecast.length > 1 ? forecast[1].kp : lastKp`. -/
def nextForecastKp (kp : List KpSample) (forecast : List ForecastSample) : ℚ :=
  if h : 1 < forecast.length then (forecast.get ⟨1, h⟩).kp else lastKp kp

-- Danger scoring -------------------------------------------------------------

/-- The score accumulation of `analyzeData` (lines 187-202), transcribed as
the same three sequential conditional cascades over a running score. -/
def dangerScore (kpNow windAvg : ℚ) (cls : FlareClass) : ℕ :=
  let score : ℕ := 0
  let score :=
    if kpNow ≥ 7 then score + 4
    else if kpNow ≥ 5 then score + 3
    else if kpNow ≥ 4 then score + 2
    else if kpNow ≥ 3 then score + 1
    else score
  let score :=
    if windAvg ≥ 700 then score + 3
    else if windAvg ≥ 500 then score + 2
    else if windAvg ≥ 400 then score + 1
    else score
  let score :=
    if cls.letter = .X then score + 3
    else if cls.letter = .M then
      if cls.mantissa ≥ 5 then score + 2 else score + 1
    else score
  score

/-- The severity labels `ФОНОВЫЙ` / `УМЕРЕННЫЙ` / `ВЫСОКИЙ`. -/
inductive DangerLabel
  | BACKGROUND | MODERATE | HIGH
deriving DecidableEq

/-- Lines 204-207: `score >= 5 → ВЫСОКИЙ`, `score >= 3 → УМЕРЕННЫЙ`,
else `ФОНОВЫЙ`. -/
def dangerLabel (score : ℕ) : DangerLabel :=
  if score ≥ 5 then .HIGH
  else if score ≥ 3 then .MODERATE
  else .BACKGROUND

/-- Pipeline-level score: `dangerScore` applied to the snapshot aggregates. -/
def scoreOf (kp : List KpSample) (wind : List WindSample)
    (flares : List FlareSample) : ℕ :=
  dangerScore (lastKp kp) (avgWind wind) (getFlareClass (avgFlux flares))

-- Report sections, as the structured data determining each sentence ----------

inductive Trend
  | rising | falling | stable
deriving DecidableEq

/-- Lines 217-221: sign of `lastKp - prevKp`, no dead-band. -/
def trendOf (kp : List KpSample) : Trend :=
  let kpTrend := lastKp kp - prevKp kp
  if kpTrend > 0 then .rising
  else if kpTrend < 0 then .falling
  else .stable

inductive StatusTier
  | g3 | g1g2 | excited | unsettled | calm
deriving DecidableEq

/-- Lines 223-233: the status-sentence tier, by `lastKp`. -/
def statusTierOf (kp : List KpSample) : StatusTier :=
  if lastKp kp ≥ 7 then .g3
  else if lastKp kp ≥ 5 then .g1g2
  else if lastKp kp ≥ 4 then .excited
  else if lastKp kp ≥ 3 then .unsettled
  else .calm

inductive WindTrendMsg
  | surge | declining | stable
deriving DecidableEq

/-- Lines 238-242: wind trend with the 50 km/s dead-band. -/
def windTrendOf (wind : List WindSample) : WindTrendMsg :=
  let windDiff := avgWind wind - prevWind wind
  if windDiff > 50 then .surge
  else if windDiff < -50 then .declining
  else .stable

inductive SourceNote
  | coronalHole | cme
deriving DecidableEq

/-- The data content of the ДИНАМИКА section (lines 237-259).
`staleDensity` is the density figure of the low-wind sentence, read from the
component state `windData` (not from the `wind` parameter). -/
structure DynamicsMsg where
  elevated : Bool
  sourceNote : Option SourceNote
  lowKpCaveat : Bool
  windTrend : WindTrendMsg
  roundedWind : ℤ
  staleDensity : Option ℚ
deriving DecidableEq

/-- Lines 244-259, with `stateWind` the React state `windData` captured by the
closure at the time `analyzeData` runs. -/
def dynamicsOf (kp : List KpSample) (wind : List WindSample)
    (protons : List ProtonSample) (stateWind : List WindSample) : DynamicsMsg :=
  if avgWind wind ≥ 500 then
    { elevated := true
      sourceNote := some (if avgProton protons < 10 then .coronalHole else .cme)
      lowKpCaveat := lastKp kp < 4
      windTrend := windTrendOf wind
      roundedWind := round (avgWind wind)
      staleDensity := none }
  else
    { elevated := false
      sourceNote := none
      lowKpCaveat := false
      windTrend := windTrendOf wind
      roundedWind := round (avgWind wind)
      staleDensity :=
        (jsGet stateWind ((stateWind.length : ℤ) - 1)).map WindSample.density }

inductive ForecastMsg
  | rise | stabilize | noChange
deriving DecidableEq

/-- Lines 263-270: the ПРОГНОЗ sentence choice. -/
def forecastMsgOf (kp : List KpSample) (forecast : List ForecastSample) :
    ForecastMsg :=
  if nextForecastKp kp forecast > lastKp kp then .rise
  else if nextForecastKp kp forecast < lastKp kp ∧ lastKp kp ≥ 4 then .stabilize
  else .noChange

/-- The data content of the ФИЗИКА section (lines 274-281); the pfu figure of
the proton-event sentence is read from the component state `protonData`. -/
inductive PhysicsMsg
  | xray
  | protonEvent (stalePfu : Option ℚ)
  | background
deriving DecidableEq

def physicsOf (flares : List FlareSample) (protons : List ProtonSample)
    (stateProtons : List ProtonSample) : PhysicsMsg :=
  if (getFlareClass (avgFlux flares)).letter = .X then .xray
  else if avgProton protons ≥ 10 then
    .protonEvent
      ((jsGet stateProtons ((stateProtons.length : ℤ) - 1)).map ProtonSample.flux)
  else .background

/-- The outputs of one `analyzeData` invocation: the danger index and the
structured content of the four report sections.  `statusPick` and
`forecastPick` record the `pick` draws (selector call-sites 0 and 1). -/
structure AnalysisResult where
  score : ℕ
  label : DangerLabel
  statusTier : StatusTier
  statusPick : ℕ
  trend : Trend
  dynamics : DynamicsMsg
  forecastMsg : ForecastMsg
  forecastPick : ℕ
  physics : PhysicsMsg
deriving DecidableEq

/-- `analyzeData(kp, wind, flares, protons, forecast)` together with the two
pieces of component state it reads (`windData` at line 258, `protonData` at
line 278) and the phrase selector. -/
def analyzeData (kp : List KpSample) (wind : List WindSample)
    (flares : List FlareSample) (protons : List ProtonSample)
    (forecast : List ForecastSample)
    (stateWind : List WindSample) (stateProtons : List ProtonSample)
    (sel : ℕ → ℕ) : AnalysisResult :=
  { score := scoreOf kp wind flares
    label := dangerLabel (scoreOf kp wind flares)
    statusTier := statusTierOf kp
    statusPick := sel 0 % (if statusTierOf kp = .calm then 3 else 2)
    trend := trendOf kp
    dynamics := dynamicsOf kp wind protons stateWind
    forecastMsg := forecastMsgOf kp forecast
    forecastPick :=
      match forecastMsgOf kp forecast with
      | .rise => sel 1 % 2
      | .stabilize => sel 1 % 3
      | .noChange => 0
    physics := physicsOf flares protons stateProtons }

-- App-level current values and source attribution (lines 288-328) ------------

/-- `windData[windData.length - 1]?.speed || 0`. -/
def currentWind (windData : List WindSample) : ℚ :=
  jsOrElse ((jsGet windData ((windData.length : ℤ) - 1)).map WindSample.speed) 0

/-- `protonData[protonData.length - 1]?.flux || 0`. -/
def currentProtonFlux (protonData : List ProtonSample) : ℚ :=
  jsOrElse ((jsGet protonData ((protonData.length : ℤ) - 1)).map ProtonSample.flux) 0

/-- Line 324: `currentWind > 500`. -/
def isHighWind (windData : List WindSample) : Bool :=
  decide (currentWind windData > 500)

/-- Line 325: `currentProtonFlux >= 10`. -/
def isProtonStorm (protonData : List ProtonSample) : Bool :=
  decide (currentProtonFlux protonData ≥ 10)

/-- Line 327. -/
def isCoronalHoleSource (windData : List WindSample)
    (protonData : List ProtonSample) : Bool :=
  isHighWind windData && !(isProtonStorm protonData)

/-- Line 328. -/
def isCMESource (windData : List WindSample)
    (protonData : List ProtonSample) : Bool :=
  isHighWind windData && isProtonStorm protonData

-- ---------------------------------------------------------------------------
-- Spec-side formulations (named `spec…`), used to state the claims against
-- the transcribed code.
-- ---------------------------------------------------------------------------

/-- Spec wording: Kp contribution `kp≥7→4; kp≥5→3; kp≥4→2; kp≥3→1; else 0`. -/
def specKpContrib (kp : ℚ) : ℕ :=
  if kp ≥ 7 then 4 else if kp ≥ 5 then 3 else if kp ≥ 4 then 2
  else if kp ≥ 3 then 1 else 0

/-- Spec wording: wind contribution `avgSpeed≥700→3; ≥500→2; ≥400→1; else 0`. -/
def specWindContrib (speed : ℚ) : ℕ :=
  if speed ≥ 700 then 3 else if speed ≥ 500 then 2 else if speed ≥ 400 then 1
  else 0

/-- Spec wording: flare contribution `X→3; M with mantissa ≥5→2; other M→1;
else 0`. -/
def specFlareContrib (c : FlareClass) : ℕ :=
  if c.letter = .X then 3
  else if c.letter = .M then (if c.mantissa ≥ 5 then 2 else 1)
  else 0

/-- The source's cascaded score accumulation equals the sum of the three
independent contribution tables. -/
theorem dangerScore_eq (k w : ℚ) (c : FlareClass) :
    dangerScore k w c = specKpContrib k + specWindContrib w + specFlareContrib c := by
  unfold dangerScore specKpContrib specWindContrib specFlareContrib
  split_ifs <;> rfl

/-- Characterization of the three label buckets. -/
theorem dangerLabel_iff (s : ℕ) :
    (dangerLabel s = .HIGH ↔ 5 ≤ s) ∧
    (dangerLabel s = .MODERATE ↔ 3 ≤ s ∧ s < 5) ∧
    (dangerLabel s = .BACKGROUND ↔ s < 3) := by
  refine ⟨?_, ?_, ?_⟩ <;> · simp only [dangerLabel]; split_ifs <;> simp <;> omega

/-- **C1.** For every snapshot, the danger score is the sum of the three
independent contributions (Kp table, 6-sample-average wind table, average
flare-class table), and the label is HIGH exactly when the score is ≥ 5,
MODERATE exactly when 3 ≤ score < 5, and BACKGROUND otherwise — so score 3 is
MODERATE and score 5 is HIGH. -/
theorem analyzeData_score_additive_and_label_cutoffs
    (kp : List KpSample) (wind : List WindSample) (flares : List FlareSample)
    (protons : List ProtonSample) (forecast : List ForecastSample)
    (stateWind : List WindSample) (stateProtons : List ProtonSample)
    (sel : ℕ → ℕ) :
    (analyzeData kp wind flares protons forecast stateWind stateProtons sel).score
        = specKpContrib (lastKp kp) + specWindContrib (avgWind wind)
          + specFlareContrib (getFlareClass (avgFlux flares)) ∧
    ((analyzeData kp wind flares protons forecast stateWind stateProtons sel).label
        = .HIGH ↔
      5 ≤ (analyzeData kp wind flares protons forecast stateWind stateProtons sel).score) ∧
    ((analyzeData kp wind flares protons forecast stateWind stateProtons sel).label
        = .MODERATE ↔
      3 ≤ (analyzeData kp wind flares protons forecast stateWind stateProtons sel).score ∧
      (analyzeData kp wind flares protons forecast stateWind stateProtons sel).score < 5) ∧
    ((analyzeData kp wind flares protons forecast stateWind stateProtons sel).label
        = .BACKGROUND ↔
      (analyzeData kp wind flares protons forecast stateWind stateProtons sel).score < 3) := by
  have h1 := dangerScore_eq (lastKp kp) (avgWind wind) (getFlareClass (avgFlux flares))
  have h2 := dangerLabel_iff (scoreOf kp wind flares)
  exact ⟨h1, h2.1, h2.2.1, h2.2.2⟩

/-- **C6.** The forecast comparator: `nextKp` is the second forecast entry's
Kp when the forecast has at least two entries and the current Kp otherwise;
`nextKp > lastKp` gives the rise sentence, `nextKp < lastKp` with
`lastKp ≥ 4` the stabilize/decline sentence, and every other case the
no-significant-change sentence. -/
theorem forecastMsg_selection
    (kp : List KpSample) (wind : List WindSample) (flares : List FlareSample)
    (protons : List ProtonSample) (forecast : List ForecastSample)
    (stateWind : List WindSample) (stateProtons : List ProtonSample)
    (sel : ℕ → ℕ) :
    (analyzeData kp wind flares protons forecast stateWind stateProtons sel).forecastMsg
      = (if (match forecast with
              | _ :: s :: _ => s.kp
              | _ => lastKp kp) > lastKp kp then ForecastMsg.rise
        else if (match forecast with
              | _ :: s :: _ => s.kp
              | _ => lastKp kp) < lastKp kp ∧ 4 ≤ lastKp kp then
          ForecastMsg.stabilize
        else ForecastMsg.noChange) := by
  have hnk : nextForecastKp kp forecast =
      (match forecast with
        | _ :: s :: _ => s.kp
        | _ => lastKp kp) := by
    rcases forecast with _ | ⟨a, _ | ⟨b, r⟩⟩ <;> simp [nextForecastKp]
  show forecastMsgOf kp forecast = _
  rw [forecastMsgOf, hnk]

/-- **C9.** The previous Kp is the second-to-last sample's value, but falls
back to the current Kp whenever that sample is absent or its value is exactly
`0` (a falsiness check); consequently a Kp series whose second-to-last kp is
`0` always yields the STABLE trend phrase, even when the last kp is larger. -/
theorem prevKp_falsy_fallback_stable_trend
    (kp : List KpSample) (wind : List WindSample) (flares : List FlareSample)
    (protons : List ProtonSample) (forecast : List ForecastSample)
    (stateWind : List WindSample) (stateProtons : List ProtonSample)
    (sel : ℕ → ℕ) :
    (∀ s : KpSample, jsGet kp ((kp.length : ℤ) - 2) = some s → s.kp ≠ 0 →
        prevKp kp = s.kp) ∧
    (jsGet kp ((kp.length : ℤ) - 2) = none → prevKp kp = lastKp kp) ∧
    (∀ s : KpSample, jsGet kp ((kp.length : ℤ) - 2) = some s → s.kp = 0 →
        prevKp kp = lastKp kp ∧
        (analyzeData kp wind flares protons forecast stateWind stateProtons
            sel).trend = .stable) := by
  refine ⟨fun s hs hne => ?_, fun hn => ?_, fun s hs h0 => ?_⟩
  · rw [prevKp, hs]
    simp [jsOrElse, hne]
  · rw [prevKp, hn]
    simp [jsOrElse]
  · have hprev : prevKp kp = lastKp kp := by
      rw [prevKp, hs]
      simp [jsOrElse, h0]
    refine ⟨hprev, ?_⟩
    show trendOf kp = .stable
    rw [trendOf, hprev]
    simp

/-- Witness for C9: on `kp = [{kp := 0}, {kp := 5}]` the second-to-last kp is
`0`, the fallback fires, and the trend is STABLE although the last kp rose. -/
theorem prevKp_falsy_fallback_stable_trend_witness :
    prevKp [⟨0, 0⟩, ⟨1, 5⟩] = lastKp [⟨0, 0⟩, ⟨1, 5⟩] ∧
    (analyzeData [⟨0, 0⟩, ⟨1, 5⟩] [] [] [] [] [] [] (fun _ => 0)).trend
      = .stable :=
  (prevKp_falsy_fallback_stable_trend [⟨0, 0⟩, ⟨1, 5⟩] [] [] [] [] [] []
      (fun _ => 0)).2.2 ⟨0, 0⟩ (by decide) rfl

/-- **C3, counterexample.** On a snapshot whose 6-sample average wind speed is
`350` but whose current (last) wind sample is `600`, the UI flags attribute a
coronal-hole high-speed stream, while the narrative produces no attribution:
the claim's single pair of booleans (`isHighWind` from the 6-sample average)
does not drive the flags, which use the current sample instead. -/
theorem sourceFlags_ignore_wind_average :
    isCoronalHoleSource
        [⟨0, 300, 1⟩, ⟨1, 300, 1⟩, ⟨2, 300, 1⟩, ⟨3, 300, 1⟩, ⟨4, 300, 1⟩,
          ⟨5, 600, 1⟩] [⟨0, 2⟩] = true ∧
    avgWind [⟨0, 300, 1⟩, ⟨1, 300, 1⟩, ⟨2, 300, 1⟩, ⟨3, 300, 1⟩, ⟨4, 300, 1⟩,
          ⟨5, 600, 1⟩] = 350 ∧
    (analyzeData []
        [⟨0, 300, 1⟩, ⟨1, 300, 1⟩, ⟨2, 300, 1⟩, ⟨3, 300, 1⟩, ⟨4, 300, 1⟩,
          ⟨5, 600, 1⟩] [] [⟨0, 2⟩] [] [] [] (fun _ => 0)).dynamics.sourceNote
      = none := by
  refine ⟨by decide, by norm_num [avgWind, getAverage, jsSliceLast], ?_⟩
  show (dynamicsOf _ _ _ _).sourceNote = none
  rw [dynamicsOf]
  norm_num [avgWind, getAverage, jsSliceLast]

/-- **C3, amended.** The attribution is computed twice with different inputs:
the UI alert flags use the current (last-sample) wind speed `> 500` and the
current proton flux `≥ 10` (both → CME flag, high wind alone → coronal-hole
flag, otherwise neither), while the narrative sentence uses the 6-sample
average wind speed `≥ 500` and the 6-sample average proton flux `< 10` to
choose between coronal-hole and CME wording (no sentence below average 500). -/
theorem source_attribution_two_sites
    (kp : List KpSample) (wind : List WindSample) (flares : List FlareSample)
    (protons : List ProtonSample) (forecast : List ForecastSample)
    (stateWind : List WindSample) (stateProtons : List ProtonSample)
    (sel : ℕ → ℕ) (windData : List WindSample) (protonData : List ProtonSample) :
    (isCMESource windData protonData = true ↔
      currentWind windData > 500 ∧ currentProtonFlux protonData ≥ 10) ∧
    (isCoronalHoleSource windData protonData = true ↔
      currentWind windData > 500 ∧ currentProtonFlux protonData < 10) ∧
    ((analyzeData kp wind flares protons forecast stateWind stateProtons
        sel).dynamics.sourceNote =
      if avgWind wind ≥ 500 then
        some (if avgProton protons < 10 then SourceNote.coronalHole
          else SourceNote.cme)
      else none) := by
  refine ⟨?_, ?_, ?_⟩
  · simp [isCMESource, isHighWind, isProtonStorm]
  · simp [isCoronalHoleSource, isHighWind, isProtonStorm, not_le]
  · show (dynamicsOf kp wind protons stateWind).sourceNote = _
    rw [dynamicsOf]
    split_ifs <;> rfl

/-- **C7 (code bug).** The report is not a function of the snapshot alone:
with the identical (here empty) snapshot and the same selector, two different
leftover `windData` states produce different Dynamics sections, because line
258 reads the solar-wind density from the component state `windData` instead
of the `wind` parameter (and line 278 likewise reads `protonData`). -/
theorem analyzeData_depends_on_stale_state :
    (analyzeData [] [] [] [] [] [⟨0, 0, 1⟩] []
        (fun _ => 0)).dynamics.staleDensity = some 1 ∧
    (analyzeData [] [] [] [] [] [⟨0, 0, 9⟩] []
        (fun _ => 0)).dynamics.staleDensity = some 9 ∧
    (analyzeData [] [] [] [] [] [] [⟨0, 7⟩]
        (fun _ => 0)).physics = (analyzeData [] [] [] [] [] [] [⟨0, 7⟩]
        (fun _ => 0)).physics := by
  refine ⟨?_, ?_, rfl⟩ <;>
    · show (dynamicsOf _ _ _ _).staleDensity = _
      rw [dynamicsOf]
      norm_num [avgWind, getAverage, jsGet, jsSliceLast]

/-- Spec wording of the aggregator contract: the arithmetic mean of the `key`
field over the last `min count length` elements (`0` for an empty series,
where the empty mean is the rational `0/0 = 0`). -/
def specAverage {α : Type} (data : List α) (key : α → Option ℚ)
    (count : ℕ) : ℚ :=
  ((data.drop (data.length - min count data.length)).map
      fun x => (key x).getD 0).sum / ((min count data.length : ℕ) : ℚ)

/-- **C4, counterexample.** Two quirks: (a) on a 7-sample wind series whose
first speed is `0` and whose other six speeds are `400`, the previous-window
slice `series[0 : len-6]` is the non-empty `[{speed 0}]` and averages to `0`,
yet `prevWind` falls back to the current average `400` — the fallback is a
falsiness check on the value, not an emptiness check on the slice; (b) with
`count = 0`, `slice(-0)` selects the whole series, so `getAverage` returns
`5` on a one-sample series where the last-`min(count,length)`-elements mean
is `0`. -/
theorem getAverage_prevWindow_fallback_quirks :
    ([⟨0, 0, 1⟩, ⟨1, 400, 1⟩, ⟨2, 400, 1⟩, ⟨3, 400, 1⟩, ⟨4, 400, 1⟩,
        ⟨5, 400, 1⟩, ⟨6, 400, 1⟩] : List WindSample).take (7 - 6)
      = [⟨0, 0, 1⟩] ∧
    getAverage ([⟨0, 0, 1⟩] : List WindSample) (fun w => some w.speed) 6 = 0 ∧
    prevWind [⟨0, 0, 1⟩, ⟨1, 400, 1⟩, ⟨2, 400, 1⟩, ⟨3, 400, 1⟩, ⟨4, 400, 1⟩,
        ⟨5, 400, 1⟩, ⟨6, 400, 1⟩] = 400 ∧
    getAverage ([⟨0, 5, 1⟩] : List WindSample) (fun w => some w.speed) 0 = 5 ∧
    specAverage ([⟨0, 5, 1⟩] : List WindSample) (fun w => some w.speed) 0 = 0 := by
  refine ⟨rfl, ?_, ?_, ?_, ?_⟩
  · norm_num [getAverage, jsSliceLast]
  · norm_num [prevWind, avgWind, getAverage, jsSliceLast, jsOr]
  · norm_num [getAverage, jsSliceLast]
  · norm_num [specAverage]

/-- **C4, amended.** For every `count ≥ 1`, `getAverage` returns the
arithmetic mean of the key field over the last `min(count, length)` elements
(and `0` for an empty series; `count = 0` instead averages the whole series,
a `slice(-0)` quirk); the previous-window value equals
`getAverage(series[0 : len-6], key, 6)` whenever that value is non-zero, and
falls back to the current-window average exactly when that value is `0` —
which happens both when the slice is empty and when its speeds average to
zero. -/
theorem getAverage_mean_and_prevWindow {α : Type}
    (data : List α) (key : α → Option ℚ) (count : ℕ)
    (wind : List WindSample) :
    (1 ≤ count → getAverage data key count = specAverage data key count) ∧
    (data = [] → getAverage data key count = 0) ∧
    (getAverage (wind.take (wind.length - 6)) (fun w => some w.speed) 6 = 0 →
      prevWind wind = avgWind wind) ∧
    (getAverage (wind.take (wind.length - 6)) (fun w => some w.speed) 6 ≠ 0 →
      prevWind wind
        = getAverage (wind.take (wind.length - 6)) (fun w => some w.speed) 6) := by
  refine ⟨fun hc => ?_, fun hd => ?_, fun h0 => ?_, fun hne => ?_⟩
  · rcases data with _ | ⟨a, t⟩
    · simp [getAverage, specAverage]
    · have hcount : ¬ count = 0 := by omega
      have h1 : (a :: t).length - min count (a :: t).length
          = (a :: t).length - count := by omega
      have h2 : (List.drop ((a :: t).length - count) (a :: t)).length
          = min count (a :: t).length := by
        simp only [List.length_drop]
        omega
      simp only [getAverage, specAverage, jsSliceLast, if_neg hcount,
        List.isEmpty_cons, Bool.false_eq_true, if_false, h1, h2]
  · subst hd
    simp [getAverage]
  · rw [prevWind, h0]
    simp [jsOr]
  · rw [prevWind]
    simp [jsOr, hne]

/-- Witness for the amended C4, at `count = 6`, a concrete two-sample series
and the 7-sample wind series of the counterexample. -/
theorem getAverage_mean_and_prevWindow_witness :
    getAverage ([⟨0, 1, 1⟩, ⟨1, 3, 1⟩] : List WindSample)
        (fun w => some w.speed) 6
      = specAverage ([⟨0, 1, 1⟩, ⟨1, 3, 1⟩] : List WindSample)
        (fun w => some w.speed) 6 ∧
    prevWind [⟨0, 0, 1⟩, ⟨1, 400, 1⟩, ⟨2, 400, 1⟩, ⟨3, 400, 1⟩, ⟨4, 400, 1⟩,
        ⟨5, 400, 1⟩, ⟨6, 400, 1⟩]
      = avgWind [⟨0, 0, 1⟩, ⟨1, 400, 1⟩, ⟨2, 400, 1⟩, ⟨3, 400, 1⟩, ⟨4, 400, 1⟩,
        ⟨5, 400, 1⟩, ⟨6, 400, 1⟩] :=
  ⟨(getAverage_mean_and_prevWindow ([⟨0, 1, 1⟩, ⟨1, 3, 1⟩] : List WindSample)
      (fun w => some w.speed) 6 ([] : List WindSample)).1 (by norm_num),
    (getAverage_mean_and_prevWindow ([] : List WindSample)
      (fun w => some w.speed) 6
      [⟨0, 0, 1⟩, ⟨1, 400, 1⟩, ⟨2, 400, 1⟩, ⟨3, 400, 1⟩, ⟨4, 400, 1⟩,
        ⟨5, 400, 1⟩, ⟨6, 400, 1⟩]).2.2.1
      (by norm_num [getAverage, jsSliceLast])⟩

-- Severity order and monotonicity --------------------------------------------

def letterRank : FlareLetter → ℕ
  | .A => 0
  | .B => 1
  | .C => 2
  | .M => 3
  | .X => 4

/-- The claim's flare-severity order: classes ordered `A<B<C<M<X`, and within
`M` by mantissa. -/
def sevLE (c d : FlareClass) : Prop :=
  letterRank c.letter < letterRank d.letter ∨
    (c.letter = d.letter ∧ (c.letter = .M → c.mantissa ≤ d.mantissa))

theorem specKpContrib_mono (k k' : ℚ) (h : k ≤ k') :
    specKpContrib k ≤ specKpContrib k' := by
  unfold specKpContrib
  split_ifs <;> first | omega | (exfalso; linarith)

theorem specWindContrib_mono (w w' : ℚ) (h : w ≤ w') :
    specWindContrib w ≤ specWindContrib w' := by
  unfold specWindContrib
  split_ifs <;> first | omega | (exfalso; linarith)

theorem specFlareContrib_mono (c d : FlareClass) (h : sevLE c d) :
    specFlareContrib c ≤ specFlareContrib d := by
  obtain ⟨cl, cm⟩ := c
  obtain ⟨dl, dm⟩ := d
  simp only [sevLE, letterRank, specFlareContrib] at *
  cases cl <;> cases dl <;> simp_all <;> split_ifs <;>
    first | omega | (exfalso; linarith)

/-- **C5.** Holding the other two inputs fixed, the danger score is
monotonically non-decreasing in the last Kp, in the 6-sample average wind
speed, and in flare severity (letters ordered `A<B<C<M<X`, within `M` by
mantissa): the three contributions are additive with no cross-signal
interaction. -/
theorem dangerScore_monotone (k k' w w' : ℚ) (c c' : FlareClass) :
    (k ≤ k' → dangerScore k w c ≤ dangerScore k' w c) ∧
    (w ≤ w' → dangerScore k w c ≤ dangerScore k w' c) ∧
    (sevLE c c' → dangerScore k w c ≤ dangerScore k w c') := by
  refine ⟨fun h => ?_, fun h => ?_, fun h => ?_⟩ <;>
    rw [dangerScore_eq, dangerScore_eq]
  · have := specKpContrib_mono k k' h
    omega
  · have := specWindContrib_mono w w' h
    omega
  · have := specFlareContrib_mono c c' h
    omega

/-- Witness for C5 at `Kp 3 → 6`, `wind 450 → 720`, class `C2.0 → M6.0`. -/
theorem dangerScore_monotone_witness :
    dangerScore 3 450 ⟨.C, 2⟩ ≤ dangerScore 6 450 ⟨.C, 2⟩ ∧
    dangerScore 3 450 ⟨.C, 2⟩ ≤ dangerScore 3 720 ⟨.C, 2⟩ ∧
    dangerScore 3 450 ⟨.C, 2⟩ ≤ dangerScore 3 450 ⟨.M, 6⟩ :=
  ⟨(dangerScore_monotone 3 6 450 450 ⟨.C, 2⟩ ⟨.M, 6⟩).1 (by norm_num),
    (dangerScore_monotone 3 3 450 720 ⟨.C, 2⟩ ⟨.M, 6⟩).2.1 (by norm_num),
    (dangerScore_monotone 3 3 450 450 ⟨.C, 2⟩ ⟨.M, 6⟩).2.2
      (Or.inl (by simp [letterRank]))⟩

-- Falsy fields inside the aggregator -----------------------------------------

theorem sum_getD_eq_sum_filterMap {α : Type} (l : List α)
    (key : α → Option ℚ) :
    (l.map fun x => (key x).getD 0).sum = (l.filterMap key).sum := by
  induction l with
  | nil => simp
  | cons a t ih =>
    rw [List.map_cons, List.sum_cons, List.filterMap_cons]
    cases hk : key a <;> simp [hk, ih]

theorem filterMap_sum_nonneg {α : Type} (l : List α) (key : α → Option ℚ)
    (h : ∀ x ∈ l, ∀ v : ℚ, key x = some v → 0 ≤ v) :
    0 ≤ (l.filterMap key).sum := by
  induction l with
  | nil => simp
  | cons a t ih =>
    rw [List.filterMap_cons]
    have ht := ih fun x hx => h x (List.mem_cons_of_mem a hx)
    cases hk : key a with
    | none => exact ht
    | some v =>
      rw [List.sum_cons]
      have hv := h a (List.mem_cons_self a t) v hk
      linarith

/-- **C10.** A selected sample whose key field is absent (or otherwise falsy)
contributes `0` to the sum but still counts in the divisor: the window mean
is the sum of the present values divided by the full window length, and —
when the present values are non-negative — it is therefore at most the mean
that skipping those samples would give. -/
theorem getAverage_falsy_counts_in_divisor {α : Type}
    (data : List α) (key : α → Option ℚ) (count : ℕ) :
    (data ≠ [] →
      getAverage data key count
        = ((jsSliceLast data count).filterMap key).sum
            / ((jsSliceLast data count).length : ℚ)) ∧
    ((∀ x ∈ jsSliceLast data count, ∀ v : ℚ, key x = some v → 0 ≤ v) →
      getAverage data key count
        ≤ ((jsSliceLast data count).filterMap key).sum
            / (((jsSliceLast data count).filterMap key).length : ℚ)) := by
  constructor
  · intro hd
    have hne : data.isEmpty = false := by
      simpa [List.isEmpty_iff] using hd
    simp only [getAverage, hne, Bool.false_eq_true, if_false]
    rw [sum_getD_eq_sum_filterMap]
  · intro hpos
    rcases eq_or_ne data [] with hd | hd
    · subst hd
      have hslice : jsSliceLast ([] : List α) count = [] := by
        simp [jsSliceLast]
      simp [getAverage, hslice]
    · have hne : data.isEmpty = false := by
        simpa [List.isEmpty_iff] using hd
      simp only [getAverage, hne, Bool.false_eq_true, if_false]
      rw [sum_getD_eq_sum_filterMap]
      set l := jsSliceLast data count with hl
      have hs : 0 ≤ (l.filterMap key).sum := filterMap_sum_nonneg l key hpos
      have hmn : (l.filterMap key).length ≤ l.length :=
        List.length_filterMap_le key l
      rcases Nat.eq_zero_or_pos (l.filterMap key).length with hm | hm
      · have : l.filterMap key = [] := List.length_eq_zero.mp hm
        simp [this]
      · have hn : 0 < l.length := lt_of_lt_of_le hm hmn
        rw [div_le_div_iff₀ (by exact_mod_cast hn) (by exact_mod_cast hm)]
        have : ((l.filterMap key).length : ℚ) ≤ (l.length : ℚ) := by
          exact_mod_cast hmn
        nlinarith

/-- Witness for C10 on a two-sample window, one sample's field absent. -/
theorem getAverage_falsy_counts_in_divisor_witness :
    getAverage ([⟨0, 4⟩, ⟨1, 0⟩] : List ProtonSample)
        (fun p => if p.flux = 0 then none else some p.flux) 6
      = ((jsSliceLast ([⟨0, 4⟩, ⟨1, 0⟩] : List ProtonSample) 6).filterMap
            (fun p => if p.flux = 0 then none else some p.flux)).sum
          / ((jsSliceLast ([⟨0, 4⟩, ⟨1, 0⟩] : List ProtonSample) 6).length : ℚ) ∧
    getAverage ([⟨0, 4⟩, ⟨1, 0⟩] : List ProtonSample)
        (fun p => if p.flux = 0 then none else some p.flux) 6
      ≤ ((jsSliceLast ([⟨0, 4⟩, ⟨1, 0⟩] : List ProtonSample) 6).filterMap
            (fun p => if p.flux = 0 then none else some p.flux)).sum
          / (((jsSliceLast ([⟨0, 4⟩, ⟨1, 0⟩] : List ProtonSample) 6).filterMap
            (fun p => if p.flux = 0 then none else some p.flux)).length : ℚ) :=
  ⟨(getAverage_falsy_counts_in_divisor ([⟨0, 4⟩, ⟨1, 0⟩] : List ProtonSample)
      (fun p => if p.flux = 0 then none else some p.flux) 6).1 (by simp),
    (getAverage_falsy_counts_in_divisor ([⟨0, 4⟩, ⟨1, 0⟩] : List ProtonSample)
      (fun p => if p.flux = 0 then none else some p.flux) 6).2
      (by
        intro x hx v hv
        have hx2 : x = ⟨0, 4⟩ ∨ x = ⟨1, 0⟩ := by
          simpa [jsSliceLast] using hx
        rcases hx2 with h | h <;> subst h <;> split_ifs at hv with hc <;>
          (injection hv with hv2; subst hv2; norm_num))⟩

-- Peak-detector characterization ---------------------------------------------

/-- Claim-side formulation of the peak detector: the interior-index test
(`i ≥ 1` and `i + 1 < length`) via list lookups — a sample is a peak iff its
flux strictly exceeds both neighbours and the noise threshold, tagged
significant iff its flux reaches the significance threshold. -/
def interiorPeakAt (flares : List FlareSample) (i : ℕ) : Option ExtendedFlare :=
  match i with
  | 0 => none
  | j + 1 =>
    match flares.get? j, flares.get? (j + 1), flares.get? (j + 2) with
    | some p, some c, some n =>
        if c.flux > p.flux ∧ c.flux > n.flux ∧ c.flux > flareThreshold then
          some ⟨c.time, c.flux, c.cls, decide (c.flux ≥ sigThreshold)⟩
        else none
    | _, _, _ => none

/-- All interior peaks, in index order. -/
def specInteriorPeaks (flares : List FlareSample) : List ExtendedFlare :=
  (List.range flares.length).filterMap (interiorPeakAt flares)

theorem interiorPeakAt_cons_succ (a : FlareSample) (u : List FlareSample)
    (k : ℕ) : interiorPeakAt (a :: u) (k + 2) = interiorPeakAt u (k + 1) := rfl

theorem specInteriorPeaks_cons (a : FlareSample) (t : List FlareSample) :
    specInteriorPeaks (a :: t)
      = (interiorPeakAt (a :: t) 1).toList ++ specInteriorPeaks t := by
  rcases t with _ | ⟨b, s⟩
  · simp [specInteriorPeaks, interiorPeakAt]
  · show (List.range (s.length + 1 + 1)).filterMap (interiorPeakAt (a :: b :: s))
      = _
    rw [List.range_succ_eq_map, List.filterMap_cons, List.filterMap_map]
    show List.filterMap ((interiorPeakAt (a :: b :: s)) ∘ Nat.succ)
        (List.range (s.length + 1)) = _
    rw [List.range_succ_eq_map, List.filterMap_cons, List.filterMap_map]
    have h2 : (interiorPeakAt (a :: b :: s) ∘ Nat.succ) ∘ Nat.succ
        = interiorPeakAt (b :: s) ∘ Nat.succ := by
      funext k
      exact interiorPeakAt_cons_succ a (b :: s) k
    rw [h2]
    have h3 : specInteriorPeaks (b :: s)
        = List.filterMap (interiorPeakAt (b :: s) ∘ Nat.succ)
            (List.range s.length) := by
      show (List.range (s.length + 1)).filterMap (interiorPeakAt (b :: s)) = _
      rw [List.range_succ_eq_map, List.filterMap_cons, List.filterMap_map]
      rfl
    rw [h3]
    rcases h1 : interiorPeakAt (a :: b :: s) 1 with _ | p <;>
      simp [h1, Function.comp_def]

/-- The transcribed detection loop computes exactly the interior peaks, in
index order. -/
theorem detectPeaks_eq_spec (l : List FlareSample) :
    detectPeaks l = specInteriorPeaks l := by
  induction l with
  | nil => rfl
  | cons a t ih =>
    rw [specInteriorPeaks_cons, ← ih]
    rcases t with _ | ⟨b, _ | ⟨c, r⟩⟩
    · rfl
    · rfl
    · show (if b.flux > a.flux ∧ b.flux > c.flux ∧ b.flux > flareThreshold then
          [⟨b.time, b.flux, b.cls, decide (b.flux ≥ sigThreshold)⟩]
        else []) ++ detectPeaks (b :: c :: r)
        = (interiorPeakAt (a :: b :: c :: r) 1).toList
          ++ detectPeaks (b :: c :: r)
      congr 1
      show _ = (if b.flux > a.flux ∧ b.flux > c.flux ∧ b.flux > flareThreshold
        then some (⟨b.time, b.flux, b.cls,
          decide (b.flux ≥ sigThreshold)⟩ : ExtendedFlare)
        else none).toList
      split_ifs <;> rfl

theorem detectPeaks_short (l : List FlareSample) (h : l.length < 3) :
    detectPeaks l = [] := by
  rcases l with _ | ⟨a, _ | ⟨b, _ | ⟨c, r⟩⟩⟩
  · rfl
  · rfl
  · rfl
  · simp at h
    omega

theorem detectPeaks_isSignificant (l : List FlareSample) :
    ∀ p ∈ detectPeaks l, (p.isSignificant = true ↔ sigThreshold ≤ p.flux) := by
  induction l with
  | nil => simp [detectPeaks]
  | cons a t ih =>
    rcases t with _ | ⟨b, _ | ⟨c, r⟩⟩
    · simp [detectPeaks]
    · simp [detectPeaks]
    · intro p hp
      rw [detectPeaks] at hp
      rcases List.mem_append.mp hp with h | h
      · split_ifs at h with hc
        · rcases List.mem_singleton.mp h with rfl
          simp [ge_iff_le]
        · cases h
      · exact ih p h

/-- **C2.** The peak detector returns exactly the interior samples (first and
last index excluded) whose flux strictly exceeds both neighbours and the
`1e-8` noise threshold, each tagged significant exactly when its flux is at
least `1e-6` (boundary inclusive), ordered by non-increasing timestamp (most
recent first); every series shorter than 3 yields the empty list. -/
theorem detectedFlares_characterization (flares : List FlareSample) :
    (detectedFlares flares).Perm (specInteriorPeaks flares) ∧
    List.Sorted timeGE (detectedFlares flares) ∧
    (flares.length < 3 → detectedFlares flares = []) ∧
    (∀ p ∈ detectedFlares flares,
      (p.isSignificant = true ↔ sigThreshold ≤ p.flux)) := by
  refine ⟨?_, ?_, fun hshort => ?_, fun p hp => ?_⟩
  · have h := List.perm_insertionSort timeGE (detectPeaks flares)
    rw [detectPeaks_eq_spec] at h
    rw [show detectedFlares flares
        = List.insertionSort timeGE (specInteriorPeaks flares) by
      rw [detectedFlares, detectPeaks_eq_spec]]
    exact h
  · exact List.sorted_insertionSort timeGE (detectPeaks flares)
  · rw [detectedFlares, detectPeaks_short flares hshort]
    rfl
  · have hmem : p ∈ detectPeaks flares :=
      (List.perm_insertionSort timeGE (detectPeaks flares)).mem_iff.mp hp
    exact detectPeaks_isSignificant flares p hmem

/-- Witness for C2: a 2-sample series yields no peaks, and the peak of a
concrete 3-sample series carries the significance tag. -/
theorem detectedFlares_characterization_witness :
    detectedFlares [⟨0, 1, "A0.0"⟩, ⟨1, 2, "A0.0"⟩] = [] ∧
    ((⟨1, 2, "X2.0", true⟩ : ExtendedFlare).isSignificant = true ↔
      sigThreshold ≤ (⟨1, 2, "X2.0", true⟩ : ExtendedFlare).flux) :=
  ⟨(detectedFlares_characterization [⟨0, 1, "A0.0"⟩, ⟨1, 2, "A0.0"⟩]).2.2.1
      (by norm_num),
    (detectedFlares_characterization
        [⟨0, 1, "X1.0"⟩, ⟨1, 2, "X2.0"⟩, ⟨2, 1, "X1.0"⟩]).2.2.2
      ⟨1, 2, "X2.0", true⟩
      (by norm_num [detectedFlares, detectPeaks, flareThreshold, sigThreshold,
        List.insertionSort, List.orderedInsert])⟩

/-- **C8.** The analysis is total on every well-typed snapshot — all partial
JavaScript accesses in the source are guarded (`?.`, `|| 0`, length tests),
so the embedding is a total function by construction — and the guards behave
as claimed: empty series average to `0`, series shorter than 3 produce no
peaks, a forecast with at most one entry falls back to the current Kp, a
missing flare sample yields the background class `A0.0`, and the whole
pipeline on the all-empty snapshot computes score `0`, label BACKGROUND and
the background physics sentence. -/
theorem analyzeData_total_on_sparse_input
    (kp : List KpSample) (wind : List WindSample) (flares : List FlareSample)
    (protons : List ProtonSample) (forecast : List ForecastSample)
    (stateWind : List WindSample) (stateProtons : List ProtonSample)
    (sel : ℕ → ℕ) :
    (wind = [] → avgWind wind = 0) ∧
    (flares = [] → avgFlux flares = 0) ∧
    (protons = [] → avgProton protons = 0) ∧
    (flares.length < 3 → detectedFlares flares = []) ∧
    (forecast.length ≤ 1 → nextForecastKp kp forecast = lastKp kp) ∧
    (flares = [] → getFlareClass (avgFlux flares) = ⟨.A, 0⟩) ∧
    (analyzeData [] [] [] [] [] stateWind stateProtons sel).score = 0 ∧
    (analyzeData [] [] [] [] [] stateWind stateProtons sel).label
      = .BACKGROUND ∧
    (analyzeData [] [] [] [] [] stateWind stateProtons sel).physics
      = .background := by
  have hclass : getFlareClass 0 = ⟨.A, 0⟩ := by
    norm_num [getFlareClass, roundTo1]
  have hscore : scoreOf [] [] [] = 0 := by
    show dangerScore (lastKp []) (avgWind []) (getFlareClass (avgFlux [])) = 0
    have h1 : lastKp [] = 0 := rfl
    have h2 : avgWind [] = 0 := rfl
    have h3 : avgFlux ([] : List FlareSample) = 0 := rfl
    rw [h1, h2, h3, hclass]
    rfl
  refine ⟨fun h => ?_, fun h => ?_, fun h => ?_, fun h => ?_, fun h => ?_,
    fun h => ?_, ?_, ?_, ?_⟩
  · subst h; rfl
  · subst h; rfl
  · subst h; rfl
  · rw [detectedFlares, detectPeaks_short flares h]
    rfl
  · have hlen : ¬ 1 < forecast.length := by omega
    simp [nextForecastKp, hlen]
  · subst h
    show getFlareClass 0 = _
    exact hclass
  · exact hscore
  · show dangerLabel (scoreOf [] [] []) = .BACKGROUND
    rw [hscore]
    rfl
  · show physicsOf [] [] stateProtons = .background
    rw [physicsOf, show avgFlux ([] : List FlareSample) = 0 from rfl, hclass,
      show avgProton [] = 0 from rfl]
    norm_num
    intro hcon
    exact absurd hcon (by decide)

/-- Witness for C8: the guards fire on concrete empty/short inputs. -/
theorem analyzeData_total_on_sparse_input_witness :
    avgWind [] = 0 ∧
    detectedFlares [⟨0, 5, "A0.0"⟩] = [] ∧
    nextForecastKp [⟨0, 4⟩] [⟨0, 3⟩] = lastKp [⟨0, 4⟩] ∧
    getFlareClass (avgFlux []) = ⟨.A, 0⟩ := by
  have h := analyzeData_total_on_sparse_input [⟨0, 4⟩] [] [⟨0, 5, "A0.0"⟩] []
    [⟨0, 3⟩] [] [] (fun _ => 0)
  exact ⟨(analyzeData_total_on_sparse_input [⟨0, 4⟩] [] [] [] [⟨0, 3⟩] [] []
      (fun _ => 0)).1 rfl,
    h.2.2.2.1 (by norm_num),
    h.2.2.2.2.1 (by norm_num),
    (analyzeData_total_on_sparse_input [⟨0, 4⟩] [] [] [] [⟨0, 3⟩] [] []
      (fun _ => 0)).2.2.2.2.2.1 rfl⟩
